import Mathlib

/-!
Shallow embedding of `src/main.py` (Vosk + PyAudio real-time transcription
loop) and proofs of the specification claims about it.

The script's only function, `start_transcription`, checks that the model
path exists, loads a Vosk model, constructs a `KaldiRecognizer`, opens a
PyAudio input stream, and then runs an infinite capture loop: read a chunk,
feed it to the recognizer, print either the final or the partial result.
`KeyboardInterrupt` and any other exception raised inside the loop are
caught, a status line is printed, and a `finally` block releases the audio
stream.

External effects (prints, resource acquisition, reads) are recorded in an
explicit `Effect` trace.  The behaviour of the external libraries
(filesystem, Vosk, PyAudio, the interrupt signal) is an oracle supplied in
a `World`: the capture loop is driven by a finite `script` of per-iteration
stimuli, each either a successful read (with the recognizer's response for
that chunk), an external interrupt, or an exception raised inside the loop
body.
-/

namespace Sniper

/-- `MODEL_PATH = "vosk"` (src/main.py line 9). -/
def MODEL_PATH : String := "vosk"

/-- `RATE = 16000` (line 12). -/
def RATE : Nat := 16000

/-- `CHUNK = 8192` (line 13). -/
def CHUNK : Nat := 8192

/-- `CHANNELS = 1` (line 14). -/
def CHANNELS : Nat := 1

/-- The PyAudio constant `paInt16` (16-bit signed integer samples). -/
def paInt16 : Nat := 8

/-- Python's `dict.get(key, default)` on a JSON object modelled as an
association list of string fields. -/
def jsonGet (j : List (String × String)) (key dflt : String) : String :=
  match j.find? (fun p => p.1 == key) with
  | some p => p.2
  | none => dflt

/-- The recognizer's behaviour on one chunk: the boolean returned by
`recognizer.AcceptWaveform(data)` and the JSON object obtained by parsing
`recognizer.Result()` (when `accept` is true) or
`recognizer.PartialResult()` (when it is false). -/
structure RecResponse where
  accept : Bool
  result : List (String × String)
deriving DecidableEq, Repr

/-- The tagged result of one decode step, as the session interprets the
recognizer's answer for one chunk. -/
inductive TranscriptionEvent where
  | Partial (text : String)
  | Final (text : String)
deriving DecidableEq, Repr

/-- Externally observable effects of the script, in order. -/
inductive Effect where
  | print (s : String)
  | modelLoadCall (path : String)
  | recognizerCall (rate : Nat)
  | openCall (format : Nat) (channels : Nat) (rate : Nat) (input : Bool)
      (framesPerBuffer : Nat)
  | readCall (n : Nat) (exceptionOnOverflow : Bool)
  | stopStream
  | closeStream
  | terminate
deriving DecidableEq, Repr

/-- Effects that load a model, construct a recognizer, or open/read the
audio device — i.e. everything except console output. -/
def Effect.opensResource : Effect → Bool
  | .print _ => false
  | _ => true

/-- One stimulus for one iteration of the capture loop: a read that
completes (with an overflow flag for the device and the recognizer's
response to the chunk), an external `KeyboardInterrupt`, or some other
exception raised inside the loop body. -/
inductive LoopStimulus where
  | read (overflow : Bool) (resp : RecResponse)
  | interrupt
  | fatalErr (msg : String)
deriving DecidableEq, Repr

/-- How the capture loop was left. -/
inductive LoopExit where
  | interrupted
  | fatal (msg : String)
  | scriptEnded
deriving DecidableEq, Repr

/-- Outcome of the call: returned normally, escaped with an uncaught
exception, or is still inside the infinite loop (the finite stimulus
script ran out). -/
inductive Outcome where
  | returned
  | raised (msg : String)
  | running
deriving DecidableEq, Repr

/-- The external world the script runs against. -/
structure World where
  pathExists : Bool
  modelLoad : Except String Unit
  recognizerCtor : Except String Unit
  audioOpen : Except String Unit
  device : Nat → Int
  script : List LoopStimulus

/-- `pyaudio.Stream.read(n, exception_on_overflow=eoo)`: when the device
reports a buffer overflow during the read, the call raises `IOError` only
if `eoo` is true; with `eoo = False` the overflow is ignored and the
requested samples are returned. -/
def pyaudioRead (eoo overflow : Bool) (samples : List Int) :
    Except String (List Int) :=
  if overflow && eoo then .error "[Errno -9981] Input overflowed"
  else .ok samples

/-- The chunk of `CHUNK` consecutive samples the device delivers when the
read starts at sample position `pos`. -/
def readChunk (device : Nat → Int) (pos : Nat) : List Int :=
  (List.range CHUNK).map (fun i => device (pos + i))

/-- `"👂 Partial: "`, the prefix printed before interim text (line 59). -/
def partialPrefix : String := "👂 Partial: "

/-- `"\n✅ Final: "`, the prefix printed before confirmed text (line 52). -/
def finalPrefix : String := "\n✅ Final: "

/-- The event one recognizer response turns into (lines 47–59): a final
carrying `result.get("text", "")` when `AcceptWaveform` returned true, a
partial carrying `result.get("partial", "")` otherwise. -/
def eventOf (resp : RecResponse) : TranscriptionEvent :=
  if resp.accept then .Final (jsonGet resp.result "text" "")
  else .Partial (jsonGet resp.result "partial" "")

/-- Console output of one iteration's result handling (lines 47–59):
a final is printed as a new line only when its text is non-empty
(`print` appends `"\n"`); a partial is always printed with a trailing
carriage return and `end=""` (no newline). -/
def dispatch (resp : RecResponse) : List Effect :=
  if resp.accept then
    let t := jsonGet resp.result "text" ""
    if t = "" then [] else [.print (finalPrefix ++ t ++ "\n")]
  else
    [.print (partialPrefix ++ jsonGet resp.result "partial" "" ++ "\r")]

/-- Result of driving the capture loop with a finite stimulus script:
the effects emitted, the per-chunk events interpreted, the chunks read
from the device, and how the loop was left. -/
structure LoopResult where
  fx : List Effect
  events : List TranscriptionEvent
  chunks : List (List Int)
  exit : LoopExit
deriving Repr

/-- The capture loop (lines 43–59), driven by the stimulus script.  Each
iteration reads `CHUNK` samples with `exception_on_overflow=False` and
handles the recognizer's response; an interrupt or an exception leaves the
loop at once with the corresponding exit. -/
def runLoop (device : Nat → Int) : List LoopStimulus → Nat → LoopResult
  | [], _ => ⟨[], [], [], .scriptEnded⟩
  | .interrupt :: _, _ => ⟨[], [], [], .interrupted⟩
  | .fatalErr m :: _, _ => ⟨[], [], [], .fatal m⟩
  | .read ov resp :: rest, pos =>
    match pyaudioRead false ov (readChunk device pos) with
    | .error m => ⟨[.readCall CHUNK false], [], [], .fatal m⟩
    | .ok chunk =>
      let r := runLoop device rest (pos + CHUNK)
      ⟨.readCall CHUNK false :: (dispatch resp ++ r.fx),
       eventOf resp :: r.events,
       chunk :: r.chunks,
       r.exit⟩

/-- Effects of the successful setup prefix (lines 24–39): the loading
message, `Model(MODEL_PATH)`, `KaldiRecognizer(model, RATE)`,
`audio.open(format=paInt16, channels=CHANNELS, rate=RATE, input=True,
frames_per_buffer=CHUNK)`, and the two listening banner lines. -/
def setupFx : List Effect :=
  [.print ("Loading Vosk model from: " ++ MODEL_PATH ++ "...\n"),
   .modelLoadCall MODEL_PATH,
   .recognizerCall RATE,
   .openCall paInt16 CHANNELS RATE true CHUNK,
   .print "\n\n🎤 Listening... Speak now to see real-time transcription.\n",
   .print "   (Press Ctrl+C to stop.)\n"]

/-- Effects of the `finally` block (lines 65–70): stop the stream, close
it, terminate PyAudio, print the closing message. -/
def cleanupFx : List Effect :=
  [.stopStream, .closeStream, .terminate,
   .print "Microphone stream closed.\n"]

/-- `start_transcription` (lines 16–70).  The missing-path check returns
at once after two messages.  `Model`, `KaldiRecognizer` and `audio.open`
sit outside the `try`, so a failure there escapes as an uncaught
exception.  The `try` wraps only the loop: `KeyboardInterrupt` and any
other exception print one line, and the `finally` cleanup runs on both
paths before the function returns normally. -/
def start_transcription (w : World) : List Effect × Outcome :=
  if w.pathExists = false then
    ([.print ("Error: Model path not found at " ++ MODEL_PATH ++ "\n"),
      .print "Please download the small English model and unzip it into the script directory.\n"],
     .returned)
  else
    match w.modelLoad with
    | .error e =>
      ([.print ("Loading Vosk model from: " ++ MODEL_PATH ++ "...\n"),
        .modelLoadCall MODEL_PATH], .raised e)
    | .ok _ =>
      match w.recognizerCtor with
      | .error e =>
        ([.print ("Loading Vosk model from: " ++ MODEL_PATH ++ "...\n"),
          .modelLoadCall MODEL_PATH, .recognizerCall RATE], .raised e)
      | .ok _ =>
        match w.audioOpen with
        | .error e =>
          ([.print ("Loading Vosk model from: " ++ MODEL_PATH ++ "...\n"),
            .modelLoadCall MODEL_PATH, .recognizerCall RATE,
            .openCall paInt16 CHANNELS RATE true CHUNK], .raised e)
        | .ok _ =>
          let r := runLoop w.device w.script 0
          match r.exit with
          | .scriptEnded => (setupFx ++ r.fx, .running)
          | .interrupted =>
            (setupFx ++ r.fx ++
              (.print "\nStopping transcription...\n" :: cleanupFx),
             .returned)
          | .fatal m =>
            (setupFx ++ r.fx ++
              (.print ("\nAn error occurred: " ++ m ++ "\n") :: cleanupFx),
             .returned)

/-- A world whose model path is missing. -/
def wNoPath : World :=
  ⟨false, .ok (), .ok (), .ok (), fun _ => 0, []⟩

/-- A world where `Model(MODEL_PATH)` raises. -/
def wLoadFail : World :=
  ⟨true, .error "Failed to create a model", .ok (), .ok (), fun _ => 0, []⟩

/-- A world where `audio.open(...)` raises (e.g. no microphone). -/
def wOpenFail : World :=
  ⟨true, .ok (), .ok (), .error "no default input device",
   fun _ => 0, []⟩

/-- A recognizer response: still-partial, text `"hello"`. -/
def respHello : RecResponse := ⟨false, [("partial", "hello")]⟩

/-- A world where the first loop iteration raises an unrecoverable
exception while a further frame is still pending in the script. -/
def wOneFatal : World :=
  ⟨true, .ok (), .ok (), .ok (), fun _ => 0,
   [.fatalErr "boom", .read false respHello]⟩

/-- A world where the user interrupts after one overflowing frame. -/
def wInterrupt : World :=
  ⟨true, .ok (), .ok (), .ok (), fun _ => 0,
   [.read true respHello, .interrupt]⟩

/-! ## Helper lemmas -/

/-- `dict.get(key, default)` returns the default when no field has the key. -/
theorem jsonGet_of_not_mem (j : List (String × String)) (key d : String)
    (h : ∀ p ∈ j, p.1 ≠ key) : jsonGet j key d = d := by
  have hn : j.find? (fun p => p.1 == key) = none := by
    rw [List.find?_eq_none]
    intro x hx
    simpa using h x hx
  simp [jsonGet, hn]

/-- Every chunk the device delivers has exactly `CHUNK` samples. -/
theorem readChunk_length (device : Nat → Int) (pos : Nat) :
    (readChunk device pos).length = CHUNK := by
  simp [readChunk]

/-- Result handling prints; it never touches a resource. -/
theorem dispatch_only_prints (resp : RecResponse) :
    ∀ e ∈ dispatch resp, ∃ s, e = Effect.print s := by
  intro e he
  unfold dispatch at he
  by_cases ha : resp.accept <;> simp [ha] at he
  · rcases he with ⟨-, he⟩
    exact ⟨_, he⟩
  · exact ⟨_, he⟩

/-- Every read the loop issues requests `CHUNK` samples with
`exception_on_overflow=False`. -/
theorem runLoop_readCall (device : Nat → Int) (script : List LoopStimulus)
    (pos : Nat) :
    ∀ n b, Effect.readCall n b ∈ (runLoop device script pos).fx →
      n = CHUNK ∧ b = false := by
  induction script generalizing pos with
  | nil => intro n b hb; simp [runLoop] at hb
  | cons hd tl ih =>
    intro n b hb
    cases hd with
    | interrupt => simp [runLoop] at hb
    | fatalErr m => simp [runLoop] at hb
    | read ov resp =>
      simp [runLoop, pyaudioRead] at hb
      rcases hb with ⟨hn, hbz⟩ | hb
      · exact ⟨hn, hbz⟩
      rcases hb with hb | hb
      · rcases dispatch_only_prints resp _ hb with ⟨s, hs⟩
        cases hs
      · exact ih (pos + CHUNK) n b hb

/-- Every chunk the loop consumes has exactly `CHUNK` samples. -/
theorem runLoop_chunk_length (device : Nat → Int)
    (script : List LoopStimulus) (pos : Nat) :
    ∀ c ∈ (runLoop device script pos).chunks, c.length = CHUNK := by
  induction script generalizing pos with
  | nil => intro c hc; simp [runLoop] at hc
  | cons hd tl ih =>
    intro c hc
    cases hd with
    | interrupt => simp [runLoop] at hc
    | fatalErr m => simp [runLoop] at hc
    | read ov resp =>
      simp [runLoop, pyaudioRead] at hc
      rcases hc with hc | hc
      · rw [hc]; exact readChunk_length device pos
      · exact ih (pos + CHUNK) c hc

/-! ## Claims -/

/-- Claim C1: if the model path does not exist, `start_transcription`
prints the two error lines and returns at once; no model is loaded, no
recognizer constructed, no audio device opened or read — the trace holds
no resource-touching effect at all. -/
theorem modelNotFound_fast_fail (w : World) (h : w.pathExists = false) :
    (start_transcription w).2 = Outcome.returned ∧
    (start_transcription w).1 =
      [.print ("Error: Model path not found at " ++ MODEL_PATH ++ "\n"),
       .print "Please download the small English model and unzip it into the script directory.\n"] ∧
    ∀ e ∈ (start_transcription w).1, e.opensResource = false := by
  refine ⟨?_, ?_, ?_⟩ <;>
    simp [start_transcription, h, Effect.opensResource]

/-- Witness for C1 at the concrete world `wNoPath`. -/
theorem modelNotFound_fast_fail_witness :
    (start_transcription wNoPath).2 = Outcome.returned ∧
    (start_transcription wNoPath).1 =
      [.print ("Error: Model path not found at " ++ MODEL_PATH ++ "\n"),
       .print "Please download the small English model and unzip it into the script directory.\n"] :=
  ⟨(modelNotFound_fast_fail wNoPath rfl).1,
   (modelNotFound_fast_fail wNoPath rfl).2.1⟩

/-- Claim C2: when `AcceptWaveform` returns true, the session always has
an event ( `Final` of the `"text"` field) for the frame, and prints a
permanent final line exactly when that text is non-empty; an empty final
produces no output at all. -/
theorem final_emitted_iff_nonempty (resp : RecResponse)
    (h : resp.accept = true) :
    eventOf resp = TranscriptionEvent.Final (jsonGet resp.result "text" "") ∧
    (jsonGet resp.result "text" "" = "" → dispatch resp = []) ∧
    (jsonGet resp.result "text" "" ≠ "" →
      dispatch resp =
        [.print (finalPrefix ++ jsonGet resp.result "text" "" ++ "\n")]) := by
  refine ⟨?_, ?_, ?_⟩
  · simp [eventOf, h]
  · intro ht; simp [dispatch, h, ht]
  · intro ht; simp [dispatch, h, ht]

/-- Witness for C2: a final carrying `"hello world"` is printed as one
permanent line. -/
theorem final_emitted_iff_nonempty_witness :
    eventOf ⟨true, [("text", "hello world")]⟩ =
      TranscriptionEvent.Final "hello world" ∧
    dispatch ⟨true, [("text", "hello world")]⟩ =
      [.print (finalPrefix ++ "hello world" ++ "\n")] :=
  ⟨(final_emitted_iff_nonempty ⟨true, [("text", "hello world")]⟩ rfl).1,
   (final_emitted_iff_nonempty ⟨true, [("text", "hello world")]⟩ rfl).2.2
     (by decide)⟩

/-- Claim C3: a buffer overflow during `stream.read` is non-fatal — the
read is issued with `exception_on_overflow=False`, so it returns the
samples instead of raising, and the loop handles the frame and continues
with the rest of the script exactly as if no overflow had happened. -/
theorem overflow_nonfatal (device : Nat → Int) (ov : Bool)
    (resp : RecResponse) (rest : List LoopStimulus) (pos : Nat) :
    pyaudioRead false ov (readChunk device pos) =
      Except.ok (readChunk device pos) ∧
    runLoop device (.read ov resp :: rest) pos =
      ⟨.readCall CHUNK false ::
         (dispatch resp ++ (runLoop device rest (pos + CHUNK)).fx),
       eventOf resp :: (runLoop device rest (pos + CHUNK)).events,
       readChunk device pos :: (runLoop device rest (pos + CHUNK)).chunks,
       (runLoop device rest (pos + CHUNK)).exit⟩ := by
  constructor
  · simp [pyaudioRead]
  · simp [runLoop, pyaudioRead]

/-- Claim C8: when `AcceptWaveform` returns false, the partial text (even
the empty string) is rendered as one console write ending in `"\r"` with
no newline — overwrite-in-place — and the partial prefix differs from the
final prefix, so the two event kinds are distinguishable from the rendered
stream. -/
theorem partial_rendered_in_place (resp : RecResponse)
    (h : resp.accept = false) :
    eventOf resp =
      TranscriptionEvent.Partial (jsonGet resp.result "partial" "") ∧
    dispatch resp =
      [.print (partialPrefix ++ jsonGet resp.result "partial" "" ++ "\r")] ∧
    partialPrefix ≠ finalPrefix ∧
    partialPrefix.startsWith finalPrefix = false ∧
    finalPrefix.startsWith partialPrefix = false := by
  refine ⟨?_, ?_, ?_, ?_, ?_⟩
  · simp [eventOf, h]
  · simp [dispatch, h]
  · decide
  · decide
  · decide

/-- Witness for C8 at the degenerate empty partial: it renders as a plain
`"👂 Partial: \r"` write, not an error. -/
theorem partial_rendered_in_place_witness :
    eventOf ⟨false, []⟩ = TranscriptionEvent.Partial "" ∧
    dispatch ⟨false, []⟩ = [.print (partialPrefix ++ "" ++ "\r")] ∧
    partialPrefix.startsWith finalPrefix = false ∧
    finalPrefix.startsWith partialPrefix = false :=
  ⟨(partial_rendered_in_place ⟨false, []⟩ rfl).1,
   (partial_rendered_in_place ⟨false, []⟩ rfl).2.1,
   (partial_rendered_in_place ⟨false, []⟩ rfl).2.2.2.1,
   (partial_rendered_in_place ⟨false, []⟩ rfl).2.2.2.2⟩

/-- Claim C10: a result object lacking the `"text"` field (for a final)
or the `"partial"` field (for a partial) behaves exactly like an empty
result: `dict.get` substitutes `""`, the final is suppressed, and the
partial renders as empty — nothing is raised. -/
theorem missing_field_is_empty (resp : RecResponse) :
    (resp.accept = true → (∀ p ∈ resp.result, p.1 ≠ "text") →
      eventOf resp = TranscriptionEvent.Final "" ∧ dispatch resp = []) ∧
    (resp.accept = false → (∀ p ∈ resp.result, p.1 ≠ "partial") →
      eventOf resp = TranscriptionEvent.Partial "" ∧
      dispatch resp = [.print (partialPrefix ++ "\r")]) := by
  constructor
  · intro ha hmiss
    have hget := jsonGet_of_not_mem resp.result "text" "" hmiss
    constructor
    · simp [eventOf, ha, hget]
    · simp [dispatch, ha, hget]
  · intro ha hmiss
    have hget := jsonGet_of_not_mem resp.result "partial" "" hmiss
    constructor
    · simp [eventOf, ha, hget]
    · simp [dispatch, ha, hget]

/-- Witness for C10: a final result whose only field is `"spk"` is
treated as empty and suppressed. -/
theorem missing_field_is_empty_witness :
    eventOf ⟨true, [("spk", "0")]⟩ = TranscriptionEvent.Final "" ∧
    dispatch ⟨true, [("spk", "0")]⟩ = [] :=
  (missing_field_is_empty ⟨true, [("spk", "0")]⟩).1 rfl (by decide)

/-- Counterexample to C4 as stated: when `Model(MODEL_PATH)` raises, the
call ends with an uncaught exception (`raised`, not `returned`) and the
trace holds only the loading banner — no human-readable error message is
ever printed, because `Model`, `KaldiRecognizer` and `audio.open` sit
outside the `try` block. -/
theorem setup_failure_escapes_cex :
    (start_transcription wLoadFail).2 =
      Outcome.raised "Failed to create a model" ∧
    (start_transcription wLoadFail).1 =
      [.print ("Loading Vosk model from: " ++ MODEL_PATH ++ "...\n"),
       .modelLoadCall MODEL_PATH] ∧
    (start_transcription wLoadFail).2 ≠ Outcome.returned := by
  refine ⟨rfl, rfl, ?_⟩
  decide

/-- Claim C4 (amended): a model-load, recognizer-construction, or
device-open failure is fatal and is never retried — each acquisition
effect appears exactly once and the loop is never entered — but the
exception propagates out of `start_transcription` uncaught rather than
being reported as a descriptive message. -/
theorem setup_failure_fatal_no_retry (w : World) (hp : w.pathExists = true) :
    (∀ e, w.modelLoad = .error e →
      start_transcription w =
        ([.print ("Loading Vosk model from: " ++ MODEL_PATH ++ "...\n"),
          .modelLoadCall MODEL_PATH],
         .raised e)) ∧
    (∀ e, w.modelLoad = .ok () → w.recognizerCtor = .error e →
      start_transcription w =
        ([.print ("Loading Vosk model from: " ++ MODEL_PATH ++ "...\n"),
          .modelLoadCall MODEL_PATH, .recognizerCall RATE],
         .raised e)) ∧
    (∀ e, w.modelLoad = .ok () → w.recognizerCtor = .ok () →
      w.audioOpen = .error e →
      start_transcription w =
        ([.print ("Loading Vosk model from: " ++ MODEL_PATH ++ "...\n"),
          .modelLoadCall MODEL_PATH, .recognizerCall RATE,
          .openCall paInt16 CHANNELS RATE true CHUNK],
         .raised e)) := by
  refine ⟨?_, ?_, ?_⟩
  · intro e he
    simp [start_transcription, hp, he]
  · intro e hm he
    simp [start_transcription, hp, hm, he]
  · intro e hm hr he
    simp [start_transcription, hp, hm, hr, he]

/-- Witness for C4 (amended) at `wOpenFail`: a device-open failure ends
the call with an uncaught exception after exactly one open attempt. -/
theorem setup_failure_fatal_no_retry_witness :
    start_transcription wOpenFail =
      ([.print ("Loading Vosk model from: " ++ MODEL_PATH ++ "...\n"),
        .modelLoadCall MODEL_PATH, .recognizerCall RATE,
        .openCall paInt16 CHANNELS RATE true CHUNK],
       .raised "no default input device") :=
  (setup_failure_fatal_no_retry wOpenFail rfl).2.2
    "no default input device" rfl rfl rfl

/-- Claim C5: whether the loop was left by an external interrupt or by a
fatal error, the session prints exactly one status/explanatory line,
runs the same cleanup (stream stopped, closed, audio terminated), and
returns normally — neither exit is surfaced as an error. -/
theorem exit_paths_converge (w : World) (hp : w.pathExists = true)
    (hm : w.modelLoad = .ok ()) (hr : w.recognizerCtor = .ok ())
    (ha : w.audioOpen = .ok ()) :
    ((runLoop w.device w.script 0).exit = .interrupted →
      start_transcription w =
        (setupFx ++ (runLoop w.device w.script 0).fx ++
          (.print "\nStopping transcription...\n" :: cleanupFx),
         .returned)) ∧
    (∀ m, (runLoop w.device w.script 0).exit = .fatal m →
      start_transcription w =
        (setupFx ++ (runLoop w.device w.script 0).fx ++
          (.print ("\nAn error occurred: " ++ m ++ "\n") :: cleanupFx),
         .returned)) := by
  constructor
  · intro hx
    simp [start_transcription, hp, hm, hr, ha, hx]
  · intro m hx
    simp [start_transcription, hp, hm, hr, ha, hx]

/-- Witness for C5 at `wInterrupt`: an interrupt after one frame ends in
the status line, the full cleanup, and a normal return. -/
theorem exit_paths_converge_witness :
    start_transcription wInterrupt =
      (setupFx ++ (runLoop wInterrupt.device wInterrupt.script 0).fx ++
        (.print "\nStopping transcription...\n" :: cleanupFx),
       .returned) :=
  (exit_paths_converge wInterrupt rfl rfl rfl rfl).1 rfl

/-- Claim C6: for any sequence of frames fed to the loop, each
`AcceptWaveform` step yields exactly one event — `Final` of the result
text when it returned true, `Partial` otherwise — so N frames in gives
exactly N events out, never zero and never more than one per frame. -/
theorem one_event_per_frame (device : Nat → Int)
    (inputs : List (Bool × RecResponse)) (pos : Nat) :
    (runLoop device
        (inputs.map fun p => LoopStimulus.read p.1 p.2) pos).events =
      inputs.map (fun p => eventOf p.2) ∧
    (runLoop device
        (inputs.map fun p => LoopStimulus.read p.1 p.2) pos).events.length =
      inputs.length ∧
    ∀ ev ∈ (runLoop device
        (inputs.map fun p => LoopStimulus.read p.1 p.2) pos).events,
      (∃ t, ev = TranscriptionEvent.Final t) ∨
      (∃ t, ev = TranscriptionEvent.Partial t) := by
  have key : ∀ (inp : List (Bool × RecResponse)) (q : Nat),
      (runLoop device
          (inp.map fun p => LoopStimulus.read p.1 p.2) q).events =
        inp.map (fun p => eventOf p.2) := by
    intro inp
    induction inp with
    | nil => intro q; rfl
    | cons hd tl ih =>
      intro q
      simp [runLoop, pyaudioRead, ih]
  refine ⟨key inputs pos, ?_, ?_⟩
  · rw [key inputs pos]
    simp
  · intro ev hev
    cases ev with
    | Partial t => exact Or.inr ⟨t, rfl⟩
    | Final t => exact Or.inl ⟨t, rfl⟩

/-- Counterexample to C7 as stated: in `wOneFatal` a SINGLE unrecoverable
exception in the loop — no interrupt, no second error, and a further
frame still pending — already makes the session leave the loop, print
the error line, run the cleanup, and return: no event is produced and
the pending frame is never read. -/
theorem first_fatal_exits_cex :
    (start_transcription wOneFatal).1 =
      setupFx ++ (.print "\nAn error occurred: boom\n" :: cleanupFx) ∧
    (start_transcription wOneFatal).2 = Outcome.returned ∧
    (runLoop wOneFatal.device wOneFatal.script 0).events = [] ∧
    Effect.readCall CHUNK false ∉ (start_transcription wOneFatal).1 := by
  refine ⟨?_, rfl, rfl, ?_⟩
  · simp [start_transcription, wOneFatal, runLoop, setupFx, cleanupFx]
  · decide

/-- Claim C7 (amended): the capture loop is left on an external interrupt
or already on the FIRST unrecoverable error raised inside it; everything
after that stimulus in the script is never processed. -/
theorem loop_exits_on_first_fatal (device : Nat → Int) (m : String)
    (rest : List LoopStimulus) (pos : Nat) :
    runLoop device (LoopStimulus.fatalErr m :: rest) pos =
      ⟨[], [], [], .fatal m⟩ ∧
    runLoop device (LoopStimulus.interrupt :: rest) pos =
      ⟨[], [], [], .interrupted⟩ :=
  ⟨rfl, rfl⟩

/-- Claim C9: the audio device is opened with 16-bit signed PCM
(`paInt16`), one channel, 16000 Hz and 8192-sample buffers; every read
the loop issues requests exactly 8192 samples, and every chunk delivered
to the recognizer has exactly 8192 samples. -/
theorem fixed_capture_format (w : World) (hp : w.pathExists = true)
    (hm : w.modelLoad = .ok ()) (hr : w.recognizerCtor = .ok ())
    (ha : w.audioOpen = .ok ()) :
    Effect.openCall paInt16 CHANNELS RATE true CHUNK ∈
      (start_transcription w).1 ∧
    paInt16 = 8 ∧ CHANNELS = 1 ∧ RATE = 16000 ∧ CHUNK = 8192 ∧
    (∀ n b, Effect.readCall n b ∈ (start_transcription w).1 →
      n = 8192 ∧ b = false) ∧
    (∀ c ∈ (runLoop w.device w.script 0).chunks, c.length = 8192) := by
  have hshape : ∃ tail : List Effect,
      (start_transcription w).1 =
        setupFx ++ (runLoop w.device w.script 0).fx ++ tail ∧
      ∀ n b, Effect.readCall n b ∉ tail := by
    rcases hexit : (runLoop w.device w.script 0).exit with _ | m | _
    · refine ⟨.print "\nStopping transcription...\n" :: cleanupFx, ?_, ?_⟩
      · simp [start_transcription, hp, hm, hr, ha, hexit]
      · intro n b hb
        simp [cleanupFx] at hb
    · refine ⟨.print ("\nAn error occurred: " ++ m ++ "\n") :: cleanupFx,
        ?_, ?_⟩
      · simp [start_transcription, hp, hm, hr, ha, hexit]
      · intro n b hb
        simp [cleanupFx] at hb
    · refine ⟨[], ?_, ?_⟩
      · simp [start_transcription, hp, hm, hr, ha, hexit]
      · intro n b hb
        simp at hb
  obtain ⟨tail, htr, htail⟩ := hshape
  refine ⟨?_, rfl, rfl, rfl, rfl, ?_, ?_⟩
  · rw [htr]
    simp [setupFx, List.mem_append]
  · intro n b hb
    rw [htr] at hb
    have h3 : Effect.readCall n b ∈ setupFx ∨
        Effect.readCall n b ∈ (runLoop w.device w.script 0).fx ∨
        Effect.readCall n b ∈ tail := by
      simpa [List.mem_append, or_assoc] using hb
    rcases h3 with hb1 | hb2 | hb3
    · exfalso
      simp [setupFx] at hb1
    · have := runLoop_readCall w.device w.script 0 n b hb2
      simpa [CHUNK] using this
    · exact absurd hb3 (htail n b)
  · intro c hc
    have := runLoop_chunk_length w.device w.script 0 c hc
    simpa [CHUNK] using this

/-- Witness for C9 at `wInterrupt`: one overflowing frame followed by an
interrupt still shows the fixed open parameters, full-size reads, and
8192-sample chunks. -/
theorem fixed_capture_format_witness :
    Effect.openCall paInt16 CHANNELS RATE true CHUNK ∈
      (start_transcription wInterrupt).1 ∧
    paInt16 = 8 ∧ CHANNELS = 1 ∧ RATE = 16000 ∧ CHUNK = 8192 :=
  ⟨(fixed_capture_format wInterrupt rfl rfl rfl rfl).1,
   (fixed_capture_format wInterrupt rfl rfl rfl rfl).2.1,
   (fixed_capture_format wInterrupt rfl rfl rfl rfl).2.2.1,
   (fixed_capture_format wInterrupt rfl rfl rfl rfl).2.2.2.1,
   (fixed_capture_format wInterrupt rfl rfl rfl rfl).2.2.2.2.1⟩

end Sniper
